import Mathlib

/-!
Shallow embedding of the `VectorDB` wrapper (src/vector_db.py) and the
retrieval flow of the query script (src/multimodal_rag.py).

Modelling conventions:
- The external ChromaDB client is modelled as explicit state: a list of
  collections, looked up by name.  `client.get_collection` raising an
  exception is modelled as returning `none` (ChromaDB raises exactly when
  no collection of that name exists); other external failures are modelled
  as `Except.error` values.
- Embedding vectors are `List Int` (the numeric content of the float
  vectors is irrelevant to every property below; only list structure,
  lengths and the store's ordering of results matter).
- `collection.add` fails when the four argument lists have unequal
  lengths (ChromaDB's ValueError); `collection.query` fails on an
  embedding-dimension mismatch (ChromaDB's InvalidDimensionException).
- Python `print` calls are omitted: they do not affect state or results.
-/

set_option autoImplicit false

/-- A metadata value: ChromaDB metadata dicts in this repository hold ints
and strings. -/
inductive MVal where
  | i (n : Int)
  | s (v : String)
  deriving DecidableEq

/-- A metadata dict, as an association list. -/
abbrev Metadata := List (String × MVal)

/-- One stored entry of a collection: id, document, embedding, metadata. -/
structure Item where
  id : String
  document : String
  embedding : List Int
  metadata : Metadata
  deriving DecidableEq

/-- A ChromaDB collection: its name, creation metadata, and stored items
in insertion order. -/
structure Collection where
  name : String
  metadata : Metadata
  items : List Item
  deriving DecidableEq

/-- The persistent client state: the list of existing collections. -/
abbrev State := List Collection

/-- The result shape of `collection.query`: one inner list per query
embedding. -/
structure QueryResult where
  ids : List (List String)
  documents : List (List String)
  metadatas : List (List Metadata)
  distances : List (List Int)
  deriving DecidableEq

def lengthErrorMsg : String := "ValueError: unequal lengths of ids, documents, embeddings, metadatas"

def dimensionErrorMsg : String := "InvalidDimensionException"

def notFoundErrorMsg : String := "ValueError: collection does not exist"

def keyErrorMsg : String := "KeyError"

def typeErrorMsg : String := "TypeError: expected str path"

/-- Lookup of a key in a metadata dict. -/
def metaLookup (m : Metadata) (k : String) : Option MVal :=
  (m.find? (fun kv => kv.1 == k)).map (fun kv => kv.2)

/-- `where=` filter semantics: every key/value pair of the filter must be
present in the item's metadata; `none` (Python `None`) matches everything. -/
def matchesFilter (filt : Option Metadata) (m : Metadata) : Bool :=
  match filt with
  | none => true
  | some f => f.all (fun kv => metaLookup m kv.1 == some kv.2)

/-- Squared euclidean distance between two embeddings (the store's
ranking key, abstracted to `Int`). -/
def sqDist (a b : List Int) : Int :=
  (List.zipWith (fun x y => (x - y) * (x - y)) a b).sum

/-- Insert into a distance-sorted list, keeping earlier items first on
ties (a stable order, as the store returns). -/
def insertByDist (p : Int × Item) : List (Int × Item) → List (Int × Item)
  | [] => [p]
  | q :: rest => if p.1 < q.1 then p :: q :: rest else q :: insertByDist p rest

/-- Stable insertion sort by distance. -/
def sortByDist : List (Int × Item) → List (Int × Item)
  | [] => []
  | p :: rest => insertByDist p (sortByDist rest)

/-- `collection.count()`. -/
def collection_count (c : Collection) : Nat := c.items.length

/-- Pair up ids, documents, embeddings and metadatas into items
(all four lists have equal length when this is reached). -/
def mkItems : List String → List String → List (List Int) → List Metadata → List Item
  | i :: is, d :: ds, e :: es, m :: ms => ⟨i, d, e, m⟩ :: mkItems is ds es ms
  | _, _, _, _ => []

/-- `collection.add(documents=..., embeddings=..., metadatas=..., ids=...)`:
appends the entries; raises on unequal list lengths. -/
def collection_add (c : Collection) (documents : List String)
    (embeddings : List (List Int)) (metadatas : List Metadata)
    (ids : List String) : Except String Collection :=
  if documents.length == embeddings.length
      && documents.length == metadatas.length
      && documents.length == ids.length then
    Except.ok { c with items := c.items ++ mkItems ids documents embeddings metadatas }
  else
    Except.error lengthErrorMsg

/-- The scored, filtered, sorted, truncated result for one query embedding. -/
def queryOne (c : Collection) (qe : List Int) (k : Nat) (filt : Option Metadata) :
    List (Int × Item) :=
  (sortByDist ((c.items.filter (fun it => matchesFilter filt it.metadata)).map
    (fun it => (sqDist qe it.embedding, it)))).take k

/-- `collection.query(query_embeddings=..., n_results=..., where=...)`:
nearest `k` matching items per query embedding, ascending by distance;
raises on an embedding-dimension mismatch. -/
def collection_query (c : Collection) (qes : List (List Int)) (k : Nat)
    (filt : Option Metadata) : Except String QueryResult :=
  if c.items.all (fun it => qes.all (fun qe => it.embedding.length == qe.length)) then
    let per := qes.map (fun qe => queryOne c qe k filt)
    Except.ok ⟨per.map (fun l => l.map (fun p => p.2.id)),
               per.map (fun l => l.map (fun p => p.2.document)),
               per.map (fun l => l.map (fun p => p.2.metadata)),
               per.map (fun l => l.map (fun p => p.1))⟩
  else
    Except.error dimensionErrorMsg

/-- `client.get_collection(name=n)`: `none` models the exception raised
when no collection of that name exists. -/
def client_get_collection (st : State) (n : String) : Option Collection :=
  st.find? (fun c => c.name == n)

/-- `client.create_collection(name=n, metadata=md)`. -/
def client_create_collection (st : State) (n : String) (md : Metadata) :
    Collection × State :=
  (⟨n, md, []⟩, st ++ [⟨n, md, []⟩])

/-- `client.delete_collection(name=n)`: raises when the collection does
not exist, otherwise removes it. -/
def client_delete_collection (st : State) (n : String) : Except String State :=
  match client_get_collection st n with
  | some _ => Except.ok (st.filter (fun c => !(c.name == n)))
  | none => Except.error notFoundErrorMsg

/-- Replace the collection named `n` in the state (models in-place
mutation of the collection object obtained from the client). -/
def updateCollection (st : State) (n : String) (c' : Collection) : State :=
  st.map (fun c => if c.name == n then c' else c)

def dimensionKey : String := "dimension"

/-- `VectorDB.get_or_create_collection`: try `get_collection`; on the
(any) exception, create a collection with metadata
`{"dimension": embedding_dimension}`.  Returns the collection and the
possibly-extended state. -/
def get_or_create_collection (st : State) (collection_name : String)
    (embedding_dimension : Int) : Collection × State :=
  match client_get_collection st collection_name with
  | some c => (c, st)
  | none => client_create_collection st collection_name [(dimensionKey, MVal.i embedding_dimension)]

/-- Auto-generated ids `f"{pre}{existing_count + i}"` for `i < k`. -/
def genIds (pre : String) (existing_count : Nat) (k : Nat) : List String :=
  (List.range k).map (fun i => pre ++ toString (existing_count + i))

def textIdPre : String := "text_"

def imgIdPre : String := "img_"

/-- `VectorDB.add_text_embeddings`: get-or-create (default dimension 768),
auto-generate ids when `ids is None` from the count before the add, then
`collection.add`; the add's exception, if any, propagates unchanged. -/
def add_text_embeddings (st : State) (collection_name : String)
    (texts : List String) (embeddings : List (List Int))
    (metadatas : List Metadata) (ids : Option (List String)) :
    Except String State :=
  let p := get_or_create_collection st collection_name 768
  let ids' := match ids with
    | none => genIds textIdPre (collection_count p.1) texts.length
    | some l => l
  match collection_add p.1 texts embeddings metadatas ids' with
  | Except.ok c' => Except.ok (updateCollection p.2 collection_name c')
  | Except.error e => Except.error e

/-- `VectorDB.add_image_embeddings`: same shape, dimension 3072 and the
`img_` id prefix. -/
def add_image_embeddings (st : State) (collection_name : String)
    (image_descriptions : List String) (embeddings : List (List Int))
    (metadatas : List Metadata) (ids : Option (List String)) :
    Except String State :=
  let p := get_or_create_collection st collection_name 3072
  let ids' := match ids with
    | none => genIds imgIdPre (collection_count p.1) image_descriptions.length
    | some l => l
  match collection_add p.1 image_descriptions embeddings metadatas ids' with
  | Except.ok c' => Except.ok (updateCollection p.2 collection_name c')
  | Except.error e => Except.error e

/-- `VectorDB.search_similar`: get-or-create (default dimension 768), then
return the collection's query result unmodified; returns the
possibly-extended state alongside. -/
def search_similar (st : State) (collection_name : String)
    (query_embedding : List Int) (top_k : Nat)
    (filter_dict : Option Metadata) : State × Except String QueryResult :=
  let p := get_or_create_collection st collection_name 768
  (p.2, collection_query p.1 [query_embedding] top_k filter_dict)

/-- `VectorDB.collection_exists`: `try get_collection; return True except:
return False`. -/
def collection_exists (st : State) (collection_name : String) : Bool :=
  match client_get_collection st collection_name with
  | some _ => true
  | none => false

/-- `VectorDB.get_collection_count`: the count when the collection can be
fetched, `0` when fetching raises. -/
def get_collection_count (st : State) (collection_name : String) : Nat :=
  match client_get_collection st collection_name with
  | some c => collection_count c
  | none => 0

/-- `VectorDB.delete_collection`: the client call's exception, if any, is
caught and swallowed; the method always returns normally. -/
def delete_collection (st : State) (collection_name : String) : State :=
  match client_delete_collection st collection_name with
  | Except.ok st' => st'
  | Except.error _ => st

/-- `VectorDB.list_collections`. -/
def list_collections (st : State) : List String :=
  st.map (fun c => c.name)

/-! ### `build_vector_db_from_dataframes` (src/vector_db.py, lines 214-313)

Dataframes are modelled as lists of typed rows with the columns the
function reads. -/

/-- One row of the text metadata dataframe. -/
structure TextRow where
  file_name : String
  page_num : Int
  chunk_number : Int
  chunk_text : String
  text_embedding_chunk : List Int
  deriving DecidableEq

/-- One row of the image metadata dataframe. -/
structure ImageRow where
  file_name : String
  page_num : Int
  img_num : Int
  img_path : String
  img_desc : String
  mm_embedding_from_img_only : List Int
  deriving DecidableEq

def fileNameKey : String := "file_name"
def pageNumKey : String := "page_num"
def chunkNumberKey : String := "chunk_number"
def typeKey : String := "type"
def imgNumKey : String := "img_num"
def imgPathKey : String := "img_path"
def imgDescKey : String := "img_desc"
def textTypeVal : String := "text"
def imageTypeVal : String := "image"
def underscore : String := "_"

/-- The metadata dict built per text row. -/
def buildTextMeta (r : TextRow) : Metadata :=
  [(fileNameKey, MVal.s r.file_name), (pageNumKey, MVal.i r.page_num),
   (chunkNumberKey, MVal.i r.chunk_number), (typeKey, MVal.s textTypeVal)]

/-- The id string built per text row:
`f"text_{file_name}_{page_num}_{chunk_number}"`. -/
def buildTextId (r : TextRow) : String :=
  textIdPre ++ r.file_name ++ underscore ++ toString r.page_num
    ++ underscore ++ toString r.chunk_number

/-- The metadata dict built per image row. -/
def buildImageMeta (r : ImageRow) : Metadata :=
  [(fileNameKey, MVal.s r.file_name), (pageNumKey, MVal.i r.page_num),
   (imgNumKey, MVal.i r.img_num), (imgPathKey, MVal.s r.img_path),
   (imgDescKey, MVal.s r.img_desc), (typeKey, MVal.s imageTypeVal)]

/-- The id string built per image row:
`f"img_{file_name}_{page_num}_{img_num}"`. -/
def buildImageId (r : ImageRow) : String :=
  imgIdPre ++ r.file_name ++ underscore ++ toString r.page_num
    ++ underscore ++ toString r.img_num

/-- The text branch of `build_vector_db_from_dataframes`: when forced or
the collection is absent, prepare columns/metadatas/ids, delete the old
collection when force-rebuilding an existing one, and add. -/
def buildTextStep (st : State) (text_df : List TextRow)
    (text_collection_name : String) (force_rebuild : Bool) :
    Except String (State × Bool) :=
  if force_rebuild || !(collection_exists st text_collection_name) then
    let texts := text_df.map (fun r => r.chunk_text)
    let embeddings := text_df.map (fun r => r.text_embedding_chunk)
    let metadatas := text_df.map buildTextMeta
    let ids := text_df.map buildTextId
    let st1 := if force_rebuild && collection_exists st text_collection_name then
        delete_collection st text_collection_name
      else st
    match add_text_embeddings st1 text_collection_name texts embeddings metadatas (some ids) with
    | Except.ok st2 => Except.ok (st2, true)
    | Except.error e => Except.error e
  else
    Except.ok (st, false)

/-- The image branch of `build_vector_db_from_dataframes`. -/
def buildImageStep (st : State) (image_df : List ImageRow)
    (image_collection_name : String) (force_rebuild : Bool) :
    Except String (State × Bool) :=
  if force_rebuild || !(collection_exists st image_collection_name) then
    let descriptions := image_df.map (fun r => r.img_desc)
    let embeddings := image_df.map (fun r => r.mm_embedding_from_img_only)
    let metadatas := image_df.map buildImageMeta
    let ids := image_df.map buildImageId
    let st1 := if force_rebuild && collection_exists st image_collection_name then
        delete_collection st image_collection_name
      else st
    match add_image_embeddings st1 image_collection_name descriptions embeddings metadatas (some ids) with
    | Except.ok st2 => Except.ok (st2, true)
    | Except.error e => Except.error e
  else
    Except.ok (st, false)

/-- `build_vector_db_from_dataframes`: the text branch then the image
branch; returns the final state with `(text_built, image_built)`. -/
def build_vector_db_from_dataframes (st : State) (text_df : List TextRow)
    (image_df : List ImageRow) (text_collection_name : String)
    (image_collection_name : String) (force_rebuild : Bool) :
    Except String (State × Bool × Bool) :=
  match buildTextStep st text_df text_collection_name force_rebuild with
  | Except.error e => Except.error e
  | Except.ok (st1, text_built) =>
    match buildImageStep st1 image_df image_collection_name force_rebuild with
    | Except.error e => Except.error e
    | Except.ok (st2, image_built) => Except.ok (st2, text_built, image_built)

/-! ### The query script (src/multimodal_rag.py, lines 154-253)

The script's external collaborators are oracles passed as parameters:
`embed` (the hosted text-embedding endpoint), `model` (the hosted
generative endpoint, its streamed response joined to a string) and
`loadImage` (`Image.load_from_file`, returning the loaded object's
rendering).  External calls to embed/query/model are recorded in a trace.
The script flow is linear: any exception (a store error, a missing
metadata key, a non-string image path) aborts the run as `Except.error`. -/

/-- The literal query of the script (line 154). -/
def queryText : String := "知識庫可以獨自設定每個知識庫能否下載嗎？該如何操作？"

def text_collection_name : String := "text_embeddings"
def image_collection_name : String := "image_embeddings"
def image_text_collection_name : String := "image_text_embeddings"

/-- One entry of `matching_results_chunks_data`.  `cosine_score` models
Python's `round(1 - distance, 2)` as `1 - distance` over the abstracted
integer distances. -/
structure ChunkData where
  chunk_text : String
  file_name : MVal
  page_num : MVal
  chunk_number : MVal
  cosine_score : Int
  deriving DecidableEq

/-- One entry of `matching_results_image_fromdescription_data`. -/
structure ImageData where
  img_path : String
  img_desc : MVal
  image_description : String
  file_name : MVal
  page_num : MVal
  img_num : MVal
  cosine_score : Int
  image_object : String
  deriving DecidableEq

/-- An external call made by the script. -/
inductive Event where
  | embedCall (q : String)
  | queryCall (collection : String) (embedding : List Int) (topK : Nat)
  | modelCall (p : String)
  deriving DecidableEq

/-- Everything the script run produces. -/
structure ScriptOut where
  query_embedding : List Int
  text_results : QueryResult
  image_results : QueryResult
  final_context_text : String
  prompt : String
  response : String
  finalState : State
  trace : List Event
  deriving DecidableEq

/-- `zip(a, zip(b, c))`, the shape of the script's `zip(docs, metas, dists)`
(Python's `zip` truncates at the shortest list). -/
def zip3 {α β γ : Type} (a : List α) (b : List β) (c : List γ) : List (α × β × γ) :=
  List.zip a (List.zip b c)

/-- Effectful map over a list in `Except`, stopping at the first error. -/
def exceptMapM {α β : Type} (f : α → Except String β) : List α → Except String (List β)
  | [] => Except.ok []
  | a :: rest =>
    match f a with
    | Except.error e => Except.error e
    | Except.ok b =>
      match exceptMapM f rest with
      | Except.error e => Except.error e
      | Except.ok bs => Except.ok (b :: bs)

/-- Build one `matching_results_chunks_data` entry (lines 171-183): the
metadata subscripts raise `KeyError` when a key is absent. -/
def buildChunk (t : String × Metadata × Int) : Except String ChunkData :=
  match metaLookup t.2.1 fileNameKey, metaLookup t.2.1 pageNumKey,
        metaLookup t.2.1 chunkNumberKey with
  | some fn, some pn, some cn => Except.ok ⟨t.1, fn, pn, cn, 1 - t.2.2⟩
  | _, _, _ => Except.error keyErrorMsg

/-- `matching_results_chunks_data`, in index order.  The query was issued
with a single query embedding, so the outer result lists are singletons;
`[0]` is their head. -/
def buildChunkList (qr : QueryResult) : Except String (List ChunkData) :=
  exceptMapM buildChunk
    (zip3 (qr.documents.headD []) (qr.metadatas.headD []) (qr.distances.headD []))

/-- Build one `matching_results_image_fromdescription_data` entry
(lines 196-211): `Image.load_from_file(metadata['img_path'])` needs a
string path. -/
def buildImage (loadImage : String → String) (t : String × Metadata × Int) :
    Except String ImageData :=
  match metaLookup t.2.1 imgPathKey with
  | some (MVal.s p) =>
    match metaLookup t.2.1 imgDescKey, metaLookup t.2.1 fileNameKey,
          metaLookup t.2.1 pageNumKey, metaLookup t.2.1 imgNumKey with
    | some dsc, some fn, some pn, some inm =>
      Except.ok ⟨p, dsc, t.1, fn, pn, inm, 1 - t.2.2, loadImage p⟩
    | _, _, _, _ => Except.error keyErrorMsg
  | some _ => Except.error typeErrorMsg
  | none => Except.error keyErrorMsg

/-- `matching_results_image_fromdescription_data`, in index order. -/
def buildImageList (loadImage : String → String) (qr : QueryResult) :
    Except String (List ImageData) :=
  exceptMapM (buildImage loadImage)
    (zip3 (qr.documents.headD []) (qr.metadatas.headD []) (qr.distances.headD []))

def newlineSep : String := "\n"
def imageLabel : String := "Image: "
def captionLabel : String := "Caption: "

/-- The rendering of the `context_images` Python list inside the prompt
f-string (element rendering abstracted to the elements themselves). -/
def renderImages (xs : List String) : String := toString xs

def promptPart1 : String := " Instructions: use the images and the text provided as Context: to answer Question:\nMake sure to think thoroughly before answering the question and put the necessary steps to arrive at the answer in bullet points for easy explainability.\nIf unsure, respond, \"Not enough context to answer\".\n\nContext:\n - Text Context:\n "
def promptPart2 : String := "\n - Image Context:\n "
def promptPart3 : String := "\n \n請使用下列問題的語言做回答：\n"
def promptPart4 : String := "\n\nAnswer:\n"

/-- The prompt f-string (lines 231-245). -/
def mkPrompt (final_context_text : String) (context_images : String)
    (query : String) : String :=
  promptPart1 ++ final_context_text ++ promptPart2 ++ context_images
    ++ promptPart3 ++ query ++ promptPart4

/-- The query-time part of the script (lines 154-253): embed the query
once, search the text and image-text collections with the same embedding
(top 5 each), assemble the chunk/image result dicts, join the chunk texts,
build the prompt, and call the generative model once. -/
def runQueryScript (embed : String → List Int) (model : String → String)
    (loadImage : String → String) (st : State) : Except String ScriptOut :=
  let query_embedding := embed queryText
  let r1 := search_similar st text_collection_name query_embedding 5 none
  match r1.2 with
  | Except.error e => Except.error e
  | Except.ok text_results =>
    match buildChunkList text_results with
    | Except.error e => Except.error e
    | Except.ok chunks =>
      let r2 := search_similar r1.1 image_text_collection_name query_embedding 5 none
      match r2.2 with
      | Except.error e => Except.error e
      | Except.ok image_results =>
        match buildImageList loadImage image_results with
        | Except.error e => Except.error e
        | Except.ok imgRecs =>
          let context_text := chunks.map (fun v => v.chunk_text)
          let final_context_text := String.intercalate newlineSep context_text
          let context_images := imgRecs.flatMap
            (fun v => [imageLabel, v.image_object, captionLabel, v.image_description])
          let prompt := mkPrompt final_context_text (renderImages context_images) queryText
          let response := model prompt
          Except.ok ⟨query_embedding, text_results, image_results,
            final_context_text, prompt, response, r2.1,
            [Event.embedCall queryText,
             Event.queryCall text_collection_name query_embedding 5,
             Event.queryCall image_text_collection_name query_embedding 5,
             Event.modelCall prompt]⟩

/-! ### Helper lemmas -/

lemma collection_exists_eq_isSome (st : State) (n : String) :
    collection_exists st n = (client_get_collection st n).isSome := by
  cases h : client_get_collection st n <;> simp [collection_exists, h]

lemma client_get_some_name (st : State) (n : String) (c : Collection)
    (h : client_get_collection st n = some c) : c.name = n := by
  unfold client_get_collection at h
  have hb := List.find?_some h
  exact eq_of_beq hb

lemma get_or_create_fst_name (st : State) (n : String) (d : Int) :
    (get_or_create_collection st n d).1.name = n := by
  cases h : client_get_collection st n with
  | some c => simp [get_or_create_collection, h, client_get_some_name st n c h]
  | none => simp [get_or_create_collection, h, client_create_collection]

lemma collection_add_name (c c' : Collection) (t : List String)
    (e : List (List Int)) (m : List Metadata) (ids : List String)
    (h : collection_add c t e m ids = Except.ok c') : c'.name = c.name := by
  unfold collection_add at h
  split at h
  · cases h; rfl
  · cases h

lemma collection_add_metadata (c c' : Collection) (t : List String)
    (e : List (List Int)) (m : List Metadata) (ids : List String)
    (h : collection_add c t e m ids = Except.ok c') : c'.metadata = c.metadata := by
  unfold collection_add at h
  split at h
  · cases h; rfl
  · cases h

lemma client_get_update_ne (st : State) (n m : String) (c' : Collection)
    (hc : c'.name = n) (hm : m ≠ n) :
    client_get_collection (updateCollection st n c') m = client_get_collection st m := by
  unfold client_get_collection updateCollection
  rw [List.find?_map]
  have hp : ((fun c : Collection => c.name == m) ∘ fun c => if c.name == n then c' else c)
      = fun c : Collection => c.name == m := by
    funext c
    by_cases hcn : c.name = n
    · simp [Function.comp, hcn, hc]
    · simp [Function.comp, hcn]
  rw [hp]
  cases hf : List.find? (fun c : Collection => c.name == m) st with
  | none => rfl
  | some c0 =>
    have hm0 : c0.name = m := by
      have hb := List.find?_some hf
      exact eq_of_beq hb
    have hb : c0.name ≠ n := by rw [hm0]; exact hm
    simp [hb]

lemma client_get_update_self (st : State) (n : String) (c' : Collection)
    (hc : c'.name = n) (h : (client_get_collection st n).isSome) :
    client_get_collection (updateCollection st n c') n = some c' := by
  unfold client_get_collection updateCollection
  rw [List.find?_map]
  have hp : ((fun c : Collection => c.name == n) ∘ fun c => if c.name == n then c' else c)
      = fun c : Collection => c.name == n := by
    funext c
    by_cases hcn : c.name = n
    · simp [Function.comp, hcn, hc]
    · simp [Function.comp, hcn]
  rw [hp]
  unfold client_get_collection at h
  cases hf : List.find? (fun c : Collection => c.name == n) st with
  | none => rw [hf] at h; simp at h
  | some c0 =>
    have hb : c0.name = n := by
      have hb0 := List.find?_some hf
      exact eq_of_beq hb0
    simp [hb]

lemma client_get_filter_ne (st : State) (n m : String) (hm : m ≠ n) :
    client_get_collection (st.filter (fun c => !(c.name == n))) m =
      client_get_collection st m := by
  induction st with
  | nil => rfl
  | cons hd tl ih =>
    by_cases hh : hd.name = n
    · have h1 : (hd.name == n) = true := beq_iff_eq.mpr hh
      have h3 : (hd.name == m) = false :=
        beq_eq_false_iff_ne.mpr (by rw [hh]; exact fun hx => hm hx.symm)
      simpa [client_get_collection, List.filter_cons, h1, List.find?_cons, h3] using ih
    · have h1 : (hd.name == n) = false := beq_eq_false_iff_ne.mpr hh
      simp only [client_get_collection, List.filter_cons, h1, Bool.not_false, if_true,
        List.find?_cons] at *
      cases hb : hd.name == m
      · exact ih
      · rfl

lemma delete_preserves_ne (st : State) (n m : String) (hm : m ≠ n) :
    client_get_collection (delete_collection st n) m = client_get_collection st m := by
  unfold delete_collection client_delete_collection
  cases h : client_get_collection st n
  · rfl
  · exact client_get_filter_ne st n m hm

lemma goc_snd_preserves_ne (st : State) (n : String) (d : Int) (m : String) (hm : m ≠ n) :
    client_get_collection ((get_or_create_collection st n d).2) m =
      client_get_collection st m := by
  cases h : client_get_collection st n with
  | some c => simp [get_or_create_collection, h]
  | none =>
    simp only [get_or_create_collection, h, client_create_collection]
    unfold client_get_collection
    rw [List.find?_append]
    have h2 : ((⟨n, [(dimensionKey, MVal.i d)], []⟩ : Collection).name == m) = false :=
      beq_eq_false_iff_ne.mpr (fun hx => hm hx.symm)
    simp [List.find?_cons, h2]

lemma update_goc_preserves_ne (st : State) (n : String) (d : Int) (c' : Collection)
    (hc : c'.name = n) (m : String) (hm : m ≠ n) :
    client_get_collection (updateCollection (get_or_create_collection st n d).2 n c') m =
      client_get_collection st m := by
  rw [client_get_update_ne _ _ _ _ hc hm]
  exact goc_snd_preserves_ne st n d m hm

lemma goc_get_self (st : State) (n : String) (d : Int) :
    client_get_collection ((get_or_create_collection st n d).2) n =
      some ((get_or_create_collection st n d).1) := by
  cases h : client_get_collection st n with
  | some c => simp [get_or_create_collection, h]
  | none =>
    simp only [get_or_create_collection, h, client_create_collection]
    unfold client_get_collection
    rw [List.find?_append]
    unfold client_get_collection at h
    simp [h, List.find?_cons]

/-- Resolution of the optional `ids` argument of the add methods: the
caller's list when given, else auto-generated from the pre-add count. -/
def resolveIds (pre : String) (c : Collection) (len : Nat) (ids : Option (List String)) :
    List String :=
  match ids with
  | none => genIds pre (collection_count c) len
  | some l => l

lemma add_text_embeddings_eq (st : State) (n : String) (t : List String)
    (e : List (List Int)) (m : List Metadata) (ids : Option (List String)) :
    add_text_embeddings st n t e m ids =
      match collection_add ((get_or_create_collection st n 768).1) t e m
          (resolveIds textIdPre ((get_or_create_collection st n 768).1) t.length ids) with
      | Except.ok c' => Except.ok (updateCollection ((get_or_create_collection st n 768).2) n c')
      | Except.error err => Except.error err := by
  cases ids <;> rfl

lemma add_image_embeddings_eq (st : State) (n : String) (descs : List String)
    (e : List (List Int)) (m : List Metadata) (ids : Option (List String)) :
    add_image_embeddings st n descs e m ids =
      match collection_add ((get_or_create_collection st n 3072).1) descs e m
          (resolveIds imgIdPre ((get_or_create_collection st n 3072).1) descs.length ids) with
      | Except.ok c' => Except.ok (updateCollection ((get_or_create_collection st n 3072).2) n c')
      | Except.error err => Except.error err := by
  cases ids <;> rfl

lemma add_image_ok_get (st : State) (n : String) (descs : List String)
    (e : List (List Int)) (m : List Metadata) (ids : Option (List String)) (st2 : State)
    (h : add_image_embeddings st n descs e m ids = Except.ok st2) :
    ∃ c', collection_add ((get_or_create_collection st n 3072).1) descs e m
        (resolveIds imgIdPre ((get_or_create_collection st n 3072).1) descs.length ids)
          = Except.ok c'
      ∧ client_get_collection st2 n = some c' := by
  rw [add_image_embeddings_eq] at h
  cases h2 : collection_add ((get_or_create_collection st n 3072).1) descs e m
      (resolveIds imgIdPre ((get_or_create_collection st n 3072).1) descs.length ids) with
  | error err => rw [h2] at h; cases h
  | ok c' =>
    rw [h2] at h
    simp only [Except.ok.injEq] at h
    subst h
    refine ⟨c', rfl, ?_⟩
    have hn : c'.name = n := by
      rw [collection_add_name _ _ _ _ _ _ h2]
      exact get_or_create_fst_name st n 3072
    rw [client_get_update_self _ _ _ hn (by rw [goc_get_self]; rfl)]

lemma add_text_ok_get (st : State) (n : String) (t : List String)
    (e : List (List Int)) (m : List Metadata) (ids : Option (List String)) (st2 : State)
    (h : add_text_embeddings st n t e m ids = Except.ok st2) :
    ∃ c', collection_add ((get_or_create_collection st n 768).1) t e m
        (resolveIds textIdPre ((get_or_create_collection st n 768).1) t.length ids)
          = Except.ok c'
      ∧ client_get_collection st2 n = some c' := by
  rw [add_text_embeddings_eq] at h
  cases h2 : collection_add ((get_or_create_collection st n 768).1) t e m
      (resolveIds textIdPre ((get_or_create_collection st n 768).1) t.length ids) with
  | error err => rw [h2] at h; cases h
  | ok c' =>
    rw [h2] at h
    simp only [Except.ok.injEq] at h
    subst h
    refine ⟨c', rfl, ?_⟩
    have hn : c'.name = n := by
      rw [collection_add_name _ _ _ _ _ _ h2]
      exact get_or_create_fst_name st n 768
    rw [client_get_update_self _ _ _ hn (by rw [goc_get_self]; rfl)]

lemma add_text_preserves_ne (st : State) (n : String) (t : List String)
    (e : List (List Int)) (m : List Metadata) (ids : Option (List String)) (st2 : State)
    (h : add_text_embeddings st n t e m ids = Except.ok st2) (q : String) (hq : q ≠ n) :
    client_get_collection st2 q = client_get_collection st q := by
  rw [add_text_embeddings_eq] at h
  cases h2 : collection_add ((get_or_create_collection st n 768).1) t e m
      (resolveIds textIdPre ((get_or_create_collection st n 768).1) t.length ids) with
  | error err => rw [h2] at h; cases h
  | ok c' =>
    rw [h2] at h
    simp only [Except.ok.injEq] at h
    subst h
    have hn : c'.name = n := by
      rw [collection_add_name _ _ _ _ _ _ h2]
      exact get_or_create_fst_name st n 768
    exact update_goc_preserves_ne st n 768 c' hn q hq

lemma add_image_preserves_ne (st : State) (n : String) (descs : List String)
    (e : List (List Int)) (m : List Metadata) (ids : Option (List String)) (st2 : State)
    (h : add_image_embeddings st n descs e m ids = Except.ok st2) (q : String) (hq : q ≠ n) :
    client_get_collection st2 q = client_get_collection st q := by
  rw [add_image_embeddings_eq] at h
  cases h2 : collection_add ((get_or_create_collection st n 3072).1) descs e m
      (resolveIds imgIdPre ((get_or_create_collection st n 3072).1) descs.length ids) with
  | error err => rw [h2] at h; cases h
  | ok c' =>
    rw [h2] at h
    simp only [Except.ok.injEq] at h
    subst h
    have hn : c'.name = n := by
      rw [collection_add_name _ _ _ _ _ _ h2]
      exact get_or_create_fst_name st n 3072
    exact update_goc_preserves_ne st n 3072 c' hn q hq

lemma collection_add_ok_of_lengths (c : Collection) (t : List String)
    (e : List (List Int)) (m : List Metadata) (ids : List String)
    (h1 : t.length = e.length) (h2 : t.length = m.length) (h3 : t.length = ids.length) :
    collection_add c t e m ids =
      Except.ok { c with items := c.items ++ mkItems ids t e m } := by
  unfold collection_add
  rw [if_pos]
  simp only [Bool.and_eq_true, beq_iff_eq]
  omega

/-! ### Sample data (used by the witnesses) -/

def sampleName : String := "sample"
def sampleFile : String := "a"
def sampleIdA : String := "idA"
def sampleIdB : String := "idB"
def sampleIdI : String := "idI"
def sampleDocA : String := "docA"
def sampleDocB : String := "docB"
def sampleDesc : String := "descA"
def samplePath : String := "p.png"
def imageTextTypeVal : String := "image_text"

def sampleItemA : Item :=
  ⟨sampleIdA, sampleDocA, [1, 2],
   [(fileNameKey, MVal.s sampleFile), (pageNumKey, MVal.i 1),
    (chunkNumberKey, MVal.i 0), (typeKey, MVal.s textTypeVal)]⟩

def sampleItemB : Item :=
  ⟨sampleIdB, sampleDocB, [0, 0],
   [(fileNameKey, MVal.s sampleFile), (pageNumKey, MVal.i 1),
    (chunkNumberKey, MVal.i 1), (typeKey, MVal.s textTypeVal)]⟩

def sampleImgItem : Item :=
  ⟨sampleIdI, sampleDesc, [1, 1],
   [(fileNameKey, MVal.s sampleFile), (pageNumKey, MVal.i 1),
    (imgNumKey, MVal.i 0), (imgPathKey, MVal.s samplePath),
    (imgDescKey, MVal.s sampleDesc), (typeKey, MVal.s imageTextTypeVal)]⟩

def sampleTextCol : Collection :=
  ⟨text_collection_name, [(dimensionKey, MVal.i 768)], [sampleItemA, sampleItemB]⟩

def sampleImgCol : Collection :=
  ⟨image_text_collection_name, [(dimensionKey, MVal.i 768)], [sampleImgItem]⟩

def sampleState : State := [sampleTextCol, sampleImgCol]

lemma resolveIds_none (pre : String) (c : Collection) (len : Nat) :
    resolveIds pre c len none = genIds pre (collection_count c) len := rfl

lemma resolveIds_some (pre : String) (c : Collection) (len : Nat) (l : List String) :
    resolveIds pre c len (some l) = l := rfl

/-! ### Claim theorems -/

/-- C1: `search_similar` returns exactly the result of the underlying
collection's `query` call with `query_embeddings=[query_embedding]`,
`n_results=top_k` and `where=filter_dict`, unmodified; in particular when
the collection exists it is that collection's query result and the state
is untouched. -/
theorem claim_c1 (st : State) (n : String) (qe : List Int) (k : Nat)
    (filt : Option Metadata) :
    (search_similar st n qe k filt).2 =
      collection_query ((get_or_create_collection st n 768).1) [qe] k filt
    ∧ (∀ c, client_get_collection st n = some c →
        (search_similar st n qe k filt).2 = collection_query c [qe] k filt
        ∧ (search_similar st n qe k filt).1 = st) := by
  refine ⟨rfl, fun c hc => ?_⟩
  constructor <;> simp [search_similar, get_or_create_collection, hc]

theorem claim_c1_witness :
    (search_similar sampleState text_collection_name [1, 2] 5 none).2 =
      collection_query sampleTextCol [[1, 2]] 5 none :=
  ((claim_c1 sampleState text_collection_name [1, 2] 5 none).2 sampleTextCol (by rfl)).1

/-- C2 (amended): the catch-and-default handling comprises the
collection-existence checks (`collection_exists`, `get_collection_count`,
`get_or_create_collection`) AND `delete_collection` — all total,
defaulting (or creating) when the underlying client call raises; the add
and search operations return the underlying store call's error unchanged
and produce no error of their own. -/
theorem claim_c2 :
    (∀ st n, client_get_collection st n = none →
      collection_exists st n = false
      ∧ get_collection_count st n = 0
      ∧ delete_collection st n = st
      ∧ (∀ d, (get_or_create_collection st n d).1.name = n
          ∧ (get_or_create_collection st n d).2
              = st ++ [(get_or_create_collection st n d).1]))
    ∧ (∀ st n t e m ids err,
        add_text_embeddings st n t e m ids = Except.error err ↔
        collection_add ((get_or_create_collection st n 768).1) t e m
          (resolveIds textIdPre ((get_or_create_collection st n 768).1) t.length ids)
            = Except.error err)
    ∧ (∀ st n t e m ids err,
        add_image_embeddings st n t e m ids = Except.error err ↔
        collection_add ((get_or_create_collection st n 3072).1) t e m
          (resolveIds imgIdPre ((get_or_create_collection st n 3072).1) t.length ids)
            = Except.error err)
    ∧ (∀ st n qe k f err,
        (search_similar st n qe k f).2 = Except.error err ↔
        collection_query ((get_or_create_collection st n 768).1) [qe] k f
          = Except.error err) := by
  refine ⟨fun st n h => ?_, fun st n t e m ids err => ?_, fun st n t e m ids err => ?_,
    fun st n qe k f err => Iff.rfl⟩
  · refine ⟨?_, ?_, ?_, fun d => ?_⟩
    · simp [collection_exists, h]
    · simp [get_collection_count, h]
    · simp [delete_collection, client_delete_collection, h]
    · constructor <;> simp [get_or_create_collection, h, client_create_collection]
  · rw [add_text_embeddings_eq]
    cases h2 : collection_add ((get_or_create_collection st n 768).1) t e m
        (resolveIds textIdPre ((get_or_create_collection st n 768).1) t.length ids) <;>
      simp
  · rw [add_image_embeddings_eq]
    cases h2 : collection_add ((get_or_create_collection st n 3072).1) t e m
        (resolveIds imgIdPre ((get_or_create_collection st n 3072).1) t.length ids) <;>
      simp

theorem claim_c2_witness :
    collection_exists [] sampleName = false ∧ delete_collection [] sampleName = [] :=
  ⟨(claim_c2.1 [] sampleName (by rfl)).1, (claim_c2.1 [] sampleName (by rfl)).2.2.1⟩

/-- C2 counterexample: `delete_collection` is an operation other than the
three listed existence checks, yet when the underlying client deletion
raises (here: deleting from an empty store) it does not propagate the
exception — it swallows it and returns normally, refuting "every other
operation propagates exceptions from the underlying vector-store API
unchanged". -/
theorem claim_c2_counterexample :
    client_delete_collection [] sampleName = Except.error notFoundErrorMsg
    ∧ delete_collection [] sampleName = [] :=
  ⟨rfl, rfl⟩

/-- C3: `collection_exists` never raises; it returns `True` exactly when
the underlying `client.get_collection` succeeds and `False` when that call
raises (modelled as `none`). -/
theorem claim_c3 (st : State) (n : String) :
    (∀ c, client_get_collection st n = some c → collection_exists st n = true)
    ∧ (client_get_collection st n = none → collection_exists st n = false) := by
  constructor
  · intro c hc; simp [collection_exists, hc]
  · intro hc; simp [collection_exists, hc]

theorem claim_c3_witness :
    collection_exists sampleState text_collection_name = true
    ∧ collection_exists [] sampleName = false :=
  ⟨(claim_c3 sampleState text_collection_name).1 sampleTextCol (by rfl),
   (claim_c3 [] sampleName).2 (by rfl)⟩

/-- C4: `get_collection_count` never raises; it returns the collection's
count when fetching succeeds, and `0` when fetching raises. -/
theorem claim_c4 (st : State) (n : String) :
    (∀ c, client_get_collection st n = some c →
      get_collection_count st n = collection_count c)
    ∧ (client_get_collection st n = none → get_collection_count st n = 0) := by
  constructor
  · intro c hc; simp [get_collection_count, hc]
  · intro hc; simp [get_collection_count, hc]

theorem claim_c4_witness :
    get_collection_count sampleState text_collection_name = collection_count sampleTextCol
    ∧ get_collection_count [] sampleName = 0 :=
  ⟨(claim_c4 sampleState text_collection_name).1 sampleTextCol (by rfl),
   (claim_c4 [] sampleName).2 (by rfl)⟩

/-- C5: `get_or_create_collection` always returns a collection named
`collection_name`: the existing one when fetching succeeds, else a newly
created empty one with metadata `{"dimension": embedding_dimension}`,
appended to the store. -/
theorem claim_c5 (st : State) (n : String) (d : Int) :
    (get_or_create_collection st n d).1.name = n
    ∧ (∀ c, client_get_collection st n = some c →
        get_or_create_collection st n d = (c, st))
    ∧ (client_get_collection st n = none →
        (get_or_create_collection st n d).1.metadata = [(dimensionKey, MVal.i d)]
        ∧ (get_or_create_collection st n d).1.items = []
        ∧ (get_or_create_collection st n d).2
            = st ++ [(get_or_create_collection st n d).1]) := by
  refine ⟨get_or_create_fst_name st n d, fun c hc => ?_, fun hc => ?_⟩
  · simp [get_or_create_collection, hc]
  · simp [get_or_create_collection, hc, client_create_collection]

theorem claim_c5_witness :
    (get_or_create_collection [] sampleName 5).1.metadata = [(dimensionKey, MVal.i 5)]
    ∧ get_or_create_collection sampleState text_collection_name 99
        = (sampleTextCol, sampleState) :=
  ⟨((claim_c5 [] sampleName 5).2.2 (by rfl)).1,
   (claim_c5 sampleState text_collection_name 99).2.1 sampleTextCol (by rfl)⟩

/-- C6: with `ids=None` the add methods generate exactly one id per item,
of the form `"text_" + (n + i)` resp. `"img_" + (n + i)` with `n` the
collection's count immediately before the add, and pass the
texts/embeddings/metadatas (and, when given, the caller's ids) through to
`collection.add` unchanged. -/
theorem claim_c6 :
    (∀ pre cnt k, (genIds pre cnt k).length = k
      ∧ genIds pre cnt k = (List.range k).map (fun i => pre ++ toString (cnt + i)))
    ∧ (∀ st n t e m,
        add_text_embeddings st n t e m none =
          Except.map (updateCollection (get_or_create_collection st n 768).2 n)
            (collection_add ((get_or_create_collection st n 768).1) t e m
              (genIds textIdPre
                (collection_count ((get_or_create_collection st n 768).1)) t.length)))
    ∧ (∀ st n t e m ids,
        add_text_embeddings st n t e m (some ids) =
          Except.map (updateCollection (get_or_create_collection st n 768).2 n)
            (collection_add ((get_or_create_collection st n 768).1) t e m ids))
    ∧ (∀ st n t e m,
        add_image_embeddings st n t e m none =
          Except.map (updateCollection (get_or_create_collection st n 3072).2 n)
            (collection_add ((get_or_create_collection st n 3072).1) t e m
              (genIds imgIdPre
                (collection_count ((get_or_create_collection st n 3072).1)) t.length)))
    ∧ (∀ st n t e m ids,
        add_image_embeddings st n t e m (some ids) =
          Except.map (updateCollection (get_or_create_collection st n 3072).2 n)
            (collection_add ((get_or_create_collection st n 3072).1) t e m ids)) := by
  refine ⟨fun pre cnt k => ⟨by simp [genIds], rfl⟩, fun st n t e m => ?_,
    fun st n t e m ids => ?_, fun st n t e m => ?_, fun st n t e m ids => ?_⟩
  · rw [add_text_embeddings_eq, resolveIds_none]
    cases collection_add ((get_or_create_collection st n 768).1) t e m
        (genIds textIdPre (collection_count ((get_or_create_collection st n 768).1))
          t.length) <;> rfl
  · rw [add_text_embeddings_eq, resolveIds_some]
    cases collection_add ((get_or_create_collection st n 768).1) t e m ids <;> rfl
  · rw [add_image_embeddings_eq, resolveIds_none]
    cases collection_add ((get_or_create_collection st n 3072).1) t e m
        (genIds imgIdPre (collection_count ((get_or_create_collection st n 3072).1))
          t.length) <;> rfl
  · rw [add_image_embeddings_eq, resolveIds_some]
    cases collection_add ((get_or_create_collection st n 3072).1) t e m ids <;> rfl

/-- C8: when the collection already exists, `get_or_create_collection`
returns it with its stored metadata unchanged and `embedding_dimension`
has no effect; the `3072` of `add_image_embeddings` is recorded only when
the collection is first created, never on later calls. -/
theorem claim_c8 :
    (∀ st n c d1 d2, client_get_collection st n = some c →
        get_or_create_collection st n d1 = (c, st)
        ∧ get_or_create_collection st n d1 = get_or_create_collection st n d2)
    ∧ (∀ st n c descs e m ids st2, client_get_collection st n = some c →
        add_image_embeddings st n descs e m ids = Except.ok st2 →
        (client_get_collection st2 n).map Collection.metadata = some c.metadata)
    ∧ (∀ st n descs e m ids st2, client_get_collection st n = none →
        add_image_embeddings st n descs e m ids = Except.ok st2 →
        (client_get_collection st2 n).map Collection.metadata
          = some [(dimensionKey, MVal.i 3072)]) := by
  refine ⟨fun st n c d1 d2 hc => ?_, fun st n c descs e m ids st2 hc h => ?_,
    fun st n descs e m ids st2 hc h => ?_⟩
  · constructor <;> simp [get_or_create_collection, hc]
  · obtain ⟨c', hadd, hget⟩ := add_image_ok_get st n descs e m ids st2 h
    rw [hget]
    have h1 : c'.metadata = ((get_or_create_collection st n 3072).1).metadata :=
      collection_add_metadata _ _ _ _ _ _ hadd
    have h2 : (get_or_create_collection st n 3072).1 = c := by
      simp [get_or_create_collection, hc]
    simp [h1, h2]
  · obtain ⟨c', hadd, hget⟩ := add_image_ok_get st n descs e m ids st2 h
    rw [hget]
    have h1 : c'.metadata = ((get_or_create_collection st n 3072).1).metadata :=
      collection_add_metadata _ _ _ _ _ _ hadd
    have h2 : ((get_or_create_collection st n 3072).1).metadata
        = [(dimensionKey, MVal.i 3072)] := by
      simp [get_or_create_collection, hc, client_create_collection]
    simp [h1, h2]

theorem claim_c8_witness :
    get_or_create_collection sampleState text_collection_name 7
      = get_or_create_collection sampleState text_collection_name 3072 :=
  ((claim_c8.1 sampleState text_collection_name sampleTextCol 7 3072 (by rfl))).2

/-- C9: `delete_collection` never propagates an exception: when the
underlying client deletion raises (exactly on a nonexistent collection),
the exception is caught and the state is returned unchanged; on success
the client's resulting state is returned. -/
theorem claim_c9 (st : State) (n : String) :
    (client_delete_collection st n = Except.error notFoundErrorMsg ↔
      client_get_collection st n = none)
    ∧ (client_get_collection st n = none → delete_collection st n = st)
    ∧ (∀ st2, client_delete_collection st n = Except.ok st2 →
        delete_collection st n = st2) := by
  unfold delete_collection client_delete_collection
  cases h : client_get_collection st n <;> simp [h]

theorem claim_c9_witness : delete_collection [] sampleName = [] :=
  (claim_c9 [] sampleName).2.1 (by rfl)

lemma buildTextStep_ok (st : State) (df : List TextRow) (n : String) (force : Bool)
    (st1 : State) (b : Bool) (h : buildTextStep st df n force = Except.ok (st1, b)) :
    b = (force || !(collection_exists st n))
    ∧ ((force || !(collection_exists st n)) = false → st1 = st)
    ∧ (∀ m, m ≠ n → client_get_collection st1 m = client_get_collection st m) := by
  unfold buildTextStep at h
  by_cases hcond : (force || !(collection_exists st n)) = true
  · simp only [hcond, if_true] at h
    cases hadd : add_text_embeddings
        (if force && collection_exists st n then delete_collection st n else st) n
        (df.map fun r => r.chunk_text) (df.map fun r => r.text_embedding_chunk)
        (df.map buildTextMeta) (some (df.map buildTextId)) with
    | error err => rw [hadd] at h; cases h
    | ok stA =>
      rw [hadd] at h
      simp only [Except.ok.injEq, Prod.mk.injEq] at h
      obtain ⟨h1, h2⟩ := h
      subst h1
      refine ⟨by rw [hcond, ← h2], fun hf => absurd hcond (by rw [hf]; simp), fun m hm => ?_⟩
      rw [add_text_preserves_ne _ _ _ _ _ _ _ hadd m hm]
      split
      · exact delete_preserves_ne st n m hm
      · rfl
  · rw [if_neg hcond] at h
    simp only [Except.ok.injEq, Prod.mk.injEq] at h
    obtain ⟨h1, h2⟩ := h
    subst h1
    have hf : (force || !(collection_exists st n)) = false := by simpa using hcond
    exact ⟨by rw [← h2, hf], fun _ => rfl, fun m hm => rfl⟩

lemma buildImageStep_ok (st : State) (df : List ImageRow) (n : String) (force : Bool)
    (st1 : State) (b : Bool) (h : buildImageStep st df n force = Except.ok (st1, b)) :
    b = (force || !(collection_exists st n))
    ∧ ((force || !(collection_exists st n)) = false → st1 = st)
    ∧ (∀ m, m ≠ n → client_get_collection st1 m = client_get_collection st m) := by
  unfold buildImageStep at h
  by_cases hcond : (force || !(collection_exists st n)) = true
  · simp only [hcond, if_true] at h
    cases hadd : add_image_embeddings
        (if force && collection_exists st n then delete_collection st n else st) n
        (df.map fun r => r.img_desc) (df.map fun r => r.mm_embedding_from_img_only)
        (df.map buildImageMeta) (some (df.map buildImageId)) with
    | error err => rw [hadd] at h; cases h
    | ok stA =>
      rw [hadd] at h
      simp only [Except.ok.injEq, Prod.mk.injEq] at h
      obtain ⟨h1, h2⟩ := h
      subst h1
      refine ⟨by rw [hcond, ← h2], fun hf => absurd hcond (by rw [hf]; simp), fun m hm => ?_⟩
      rw [add_image_preserves_ne _ _ _ _ _ _ _ hadd m hm]
      split
      · exact delete_preserves_ne st n m hm
      · rfl
  · rw [if_neg hcond] at h
    simp only [Except.ok.injEq, Prod.mk.injEq] at h
    obtain ⟨h1, h2⟩ := h
    subst h1
    have hf : (force || !(collection_exists st n)) = false := by simpa using hcond
    exact ⟨by rw [← h2, hf], fun _ => rfl, fun m hm => rfl⟩

/-- C10: with `force_rebuild=False` and both named collections present,
`build_vector_db_from_dataframes` changes nothing and returns
`(False, False)`; in general each returned component is `True` exactly
when the corresponding collection was absent or `force_rebuild` was set. -/
theorem claim_c10 :
    (∀ st tdf idf, collection_exists st text_collection_name = true →
        collection_exists st image_collection_name = true →
        build_vector_db_from_dataframes st tdf idf text_collection_name
          image_collection_name false = Except.ok (st, false, false))
    ∧ (∀ st tdf idf force st2 tb ib,
        build_vector_db_from_dataframes st tdf idf text_collection_name
          image_collection_name force = Except.ok (st2, tb, ib) →
        tb = (force || !(collection_exists st text_collection_name))
        ∧ ib = (force || !(collection_exists st image_collection_name))) := by
  constructor
  · intro st tdf idf h1 h2
    simp [build_vector_db_from_dataframes, buildTextStep, buildImageStep, h1, h2]
  · intro st tdf idf force st2 tb ib h
    unfold build_vector_db_from_dataframes at h
    split at h
    · cases h
    · rename_i st1 b1 hs1
      split at h
      · cases h
      · rename_i stI b2 hs2
        simp only [Except.ok.injEq, Prod.mk.injEq] at h
        obtain ⟨hst, htb, hib⟩ := h
        obtain ⟨hb1, _, hpres1⟩ :=
          buildTextStep_ok st tdf text_collection_name force st1 b1 hs1
        obtain ⟨hb2, _, _⟩ :=
          buildImageStep_ok st1 idf image_collection_name force stI b2 hs2
        have hex : collection_exists st1 image_collection_name
            = collection_exists st image_collection_name := by
          rw [collection_exists_eq_isSome, collection_exists_eq_isSome,
            hpres1 image_collection_name (by decide)]
        constructor
        · rw [← htb, hb1]
        · rw [← hib, hb2, hex]

def sampleBuildImgCol : Collection :=
  ⟨image_collection_name, [(dimensionKey, MVal.i 3072)], []⟩

def sampleBuildState : State := [sampleTextCol, sampleBuildImgCol]

theorem claim_c10_witness :
    build_vector_db_from_dataframes sampleBuildState [] [] text_collection_name
      image_collection_name false = Except.ok (sampleBuildState, false, false) :=
  claim_c10.1 sampleBuildState [] [] (by rfl) (by rfl)

lemma exceptMapM_ok_map {α β γ : Type} (f : α → Except String β) (g : β → γ)
    (gh : α → γ) (hf : ∀ a b, f a = Except.ok b → g b = gh a) :
    ∀ (l : List α) (bs : List β), exceptMapM f l = Except.ok bs → bs.map g = l.map gh
  | [], bs, h => by
    simp only [exceptMapM, Except.ok.injEq] at h
    subst h
    rfl
  | a :: rest, bs, h => by
    simp only [exceptMapM] at h
    cases hfa : f a with
    | error err => rw [hfa] at h; cases h
    | ok b =>
      rw [hfa] at h
      cases hrest : exceptMapM f rest with
      | error err => rw [hrest] at h; cases h
      | ok bs2 =>
        rw [hrest] at h
        simp only [Except.ok.injEq] at h
        subst h
        simp only [List.map_cons, hf a b hfa,
          exceptMapM_ok_map f g gh hf rest bs2 hrest]

lemma buildChunk_text (t : String × Metadata × Int) (c : ChunkData)
    (h : buildChunk t = Except.ok c) : c.chunk_text = t.1 := by
  unfold buildChunk at h
  split at h
  · cases h; rfl
  · cases h

lemma collection_query_ok_single (c : Collection) (qe : List Int) (k : Nat)
    (filt : Option Metadata) (qr : QueryResult)
    (h : collection_query c [qe] k filt = Except.ok qr) :
    qr.documents = [(queryOne c qe k filt).map (fun p => p.2.document)]
    ∧ qr.metadatas = [(queryOne c qe k filt).map (fun p => p.2.metadata)]
    ∧ qr.distances = [(queryOne c qe k filt).map (fun p => p.1)] := by
  unfold collection_query at h
  split at h
  · cases h; exact ⟨rfl, rfl, rfl⟩
  · cases h

lemma map_fst_zip3 {α β γ : Type} (a : List α) (b : List β) (c : List γ)
    (h1 : a.length ≤ b.length) (h2 : a.length ≤ c.length) :
    (zip3 a b c).map (fun t => t.1) = a := by
  unfold zip3
  have h3 : a.length ≤ (List.zip b c).length := by
    rw [List.length_zip]
    omega
  simpa using List.map_fst_zip a (List.zip b c) h3

lemma buildChunkList_texts (qr : QueryResult) (chunks : List ChunkData)
    (c : Collection) (qe : List Int) (k : Nat) (filt : Option Metadata)
    (hq : collection_query c [qe] k filt = Except.ok qr)
    (h : buildChunkList qr = Except.ok chunks) :
    chunks.map (fun v => v.chunk_text) = qr.documents.headD [] := by
  obtain ⟨hd, hm, hdist⟩ := collection_query_ok_single c qe k filt qr hq
  unfold buildChunkList at h
  have hmap := exceptMapM_ok_map buildChunk (fun v => v.chunk_text) (fun t => t.1)
    buildChunk_text _ chunks h
  rw [hmap, hd, hm, hdist]
  simp only [List.headD_cons]
  exact map_fst_zip3 _ _ _ (by simp) (by simp)

/-- C7: the query script is linear with no failure recovery: one embed
call, two store queries with that same embedding (top 5 each), the text
context is the newline-join of the returned text documents in the store's
order, and exactly one generative-model call, made with the assembled
prompt. -/
theorem claim_c7 (embed : String → List Int) (model : String → String)
    (loadImage : String → String) (st : State) (out : ScriptOut)
    (h : runQueryScript embed model loadImage st = Except.ok out) :
    out.query_embedding = embed queryText
    ∧ out.trace = [Event.embedCall queryText,
        Event.queryCall text_collection_name (embed queryText) 5,
        Event.queryCall image_text_collection_name (embed queryText) 5,
        Event.modelCall out.prompt]
    ∧ (out.trace.countP (fun ev => match ev with
        | Event.embedCall _ => true
        | _ => false)) = 1
    ∧ (out.trace.countP (fun ev => match ev with
        | Event.modelCall _ => true
        | _ => false)) = 1
    ∧ out.final_context_text
        = String.intercalate newlineSep (out.text_results.documents.headD [])
    ∧ (∃ imgs, out.prompt = mkPrompt out.final_context_text imgs queryText)
    ∧ out.response = model out.prompt := by
  simp only [runQueryScript, search_similar] at h
  split at h
  · cases h
  · rename_i text_results hq1
    split at h
    · cases h
    · rename_i chunks hq2
      split at h
      · cases h
      · rename_i image_results hq3
        split at h
        · cases h
        · rename_i imgRecs hq4
          cases h
          refine ⟨rfl, rfl, rfl, rfl, ?_, ⟨_, rfl⟩, rfl⟩
          simp only
          rw [buildChunkList_texts text_results chunks _ _ _ _ hq1 hq2]

def sampleEmbed : String → List Int := fun _ => [1, 2]

def sampleModel : String → String := fun p => p

def sampleLoad : String → String := fun p => p

def emptyString : String := ""

def sampleOut : ScriptOut :=
  match runQueryScript sampleEmbed sampleModel sampleLoad sampleState with
  | Except.ok o => o
  | Except.error _ =>
    ⟨[], ⟨[], [], [], []⟩, ⟨[], [], [], []⟩, emptyString, emptyString, emptyString, [], []⟩

theorem claim_c7_witness : sampleOut.response = sampleModel sampleOut.prompt :=
  (claim_c7 sampleEmbed sampleModel sampleLoad sampleState sampleOut
    (by rfl)).2.2.2.2.2.2
